import Mathlib

/-
Verification development for the tinyguardian event classification pipeline.

Shallow embedding of:
  - src/tinyguardian/core/threat_classifier.py  (ThreatType, SecurityEvent,
    ThreatClassifier.classify / _determine_threat_type / _check_pattern /
    _clean_old_events / is_alert)
  - src/tinyguardian/core/llm_client.py  (LLMClient._parse_response,
    LLMClient.analyze_log)
  - src/tinyguardian/core/guardian.py  (TinyGuardian.get_stats)

Modelling conventions:
  - datetime timestamps are modelled as integer seconds (Int); the window
    `timedelta(minutes=5)` becomes the constant 300; datetime comparison and
    subtraction become Int comparison and subtraction.
  - Python floats (severities, thresholds) are modelled as rationals.
  - the Python dict `llm_analysis` is modelled as a record of Option fields,
    so that `dict.get(key, default)` becomes `Option.getD`.
  - Python substring containment `needle in hay` is modelled by `subList`
    over the strings' character lists.
  - the regex metadata helpers `_extract_ip` / `_extract_user` only fill the
    optional `source_ip` / `user` fields, which no verified property reads;
    those two fields are left out of the `SecurityEvent` record.
-/

/-- The eight threat categories of `ThreatType` in threat_classifier.py. -/
inductive ThreatType where
  | unauthorized_access
  | brute_force
  | network_anomaly
  | configuration_change
  | data_exfiltration
  | malware
  | denial_of_service
  | unknown
deriving DecidableEq, Repr

/-- The `SecurityEvent` dataclass (without the unread regex-extracted
`source_ip` / `user` metadata fields). Timestamps are integer seconds and
severities rationals. -/
structure SecurityEvent where
  event_id : String
  device_id : String
  timestamp : Int
  log_message : String
  threat_level : String
  severity : Rat
  threat_type : ThreatType
  explanation : String
  recommendation : String
deriving DecidableEq, Repr

/-- The `llm_analysis` dict passed to `ThreatClassifier.classify`: the four
keys the classifier reads, each possibly absent (`dict.get` defaults apply). -/
structure Analysis where
  threat_level : Option String
  severity : Option Rat
  explanation : Option String
  recommendation : Option String
deriving DecidableEq, Repr

/-- Python `needle in hay` on character lists: does `n` occur contiguously
inside the second list? -/
def subList (n : List Char) : List Char → Bool
  | [] => n.isEmpty
  | c :: t => n.isPrefixOf (c :: t) || subList n t

/-- Python `needle in hay` for strings. -/
def strContains (hay needle : String) : Bool :=
  subList needle.data hay.data

/-- Python `any(term in hay for term in needles)`. -/
def containsAnyOf (hay : String) (needles : List String) : Bool :=
  needles.any (fun w => strContains hay w)

/-- Python `str.lower()` (ASCII case folding), character by character. -/
def strLower (s : String) : String :=
  String.mk (s.data.map Char.toLower)

/-- `self.event_window = timedelta(minutes=5)` in seconds. -/
def event_window : Int := 300

/-- Mutable state of a `ThreatClassifier` instance: the alert threshold and
the per-device window map `recent_events` (a missing dict key is the empty
list). The window length is the constant `event_window`. -/
structure ThreatClassifier where
  severity_threshold : Rat
  recent_events : String → List SecurityEvent

/-- `ThreatClassifier.__init__` (default threshold 0.7): empty window map. -/
def ThreatClassifier.init (severity_threshold : Rat) : ThreatClassifier :=
  { severity_threshold := severity_threshold, recent_events := fun _ => [] }

/-- `ThreatClassifier._determine_threat_type`: ordered keyword-group matching
over the lower-cased log message and analysis explanation. -/
def determine_threat_type (log_message : String) (llm_analysis : Analysis) : ThreatType :=
  let combined := strLower log_message ++ " " ++ strLower (llm_analysis.explanation.getD "")
  if containsAnyOf combined ["failed login", "authentication failed", "invalid password"] then
    if containsAnyOf combined ["multiple", "repeated", "brute"] then ThreatType.brute_force
    else ThreatType.unauthorized_access
  else if containsAnyOf combined ["unauthorized", "access denied", "permission denied"] then
    ThreatType.unauthorized_access
  else if containsAnyOf combined ["network", "connection", "socket", "port scan"] then
    ThreatType.network_anomaly
  else if containsAnyOf combined ["config", "setting", "configuration changed"] then
    ThreatType.configuration_change
  else if containsAnyOf combined ["data", "export", "download", "exfiltrat"] then
    ThreatType.data_exfiltration
  else if containsAnyOf combined ["malware", "virus", "trojan", "ransomware"] then
    ThreatType.malware
  else if containsAnyOf combined ["dos", "ddos", "denial", "overload"] then
    ThreatType.denial_of_service
  else ThreatType.unknown

/-- `ThreatClassifier._check_pattern`: are there already 3 or more stored
events of this device with the same threat type inside the trailing window? -/
def check_pattern (c : ThreatClassifier) (device_id : String)
    (threat_type : ThreatType) (timestamp : Int) : Bool :=
  let recent := (c.recent_events device_id).filter
    (fun e => decide (timestamp - event_window ≤ e.timestamp) &&
              decide (e.threat_type = threat_type))
  decide (3 ≤ recent.length)

/-- `ThreatClassifier._clean_old_events`: drop this device's events strictly
older than `current_time - event_window`. -/
def clean_old_events (c : ThreatClassifier) (device_id : String)
    (current_time : Int) : ThreatClassifier :=
  let keep : SecurityEvent → Bool :=
    fun e => decide (current_time - event_window ≤ e.timestamp)
  { c with recent_events := fun d =>
      if d = device_id then (c.recent_events d).filter keep
      else c.recent_events d }

/-- `ThreatClassifier.classify`: build the event (escalating severity by 0.2,
capped at 1, when `check_pattern` fires on the pre-existing window), append it
to the device's window, then prune old events. Returns the event and the
updated classifier state. -/
def classify (c : ThreatClassifier) (device_id log_message : String)
    (llm_analysis : Analysis) (timestamp : Int) : SecurityEvent × ThreatClassifier :=
  let threat_type := determine_threat_type log_message llm_analysis
  let severity0 := llm_analysis.severity.getD 0
  let severity :=
    if check_pattern c device_id threat_type timestamp
    then min 1 (severity0 + 2/10) else severity0
  let event : SecurityEvent :=
    { event_id := "evt_" ++ toString timestamp ++ "_" ++ device_id
      device_id := device_id
      timestamp := timestamp
      log_message := log_message
      threat_level := llm_analysis.threat_level.getD "unknown"
      severity := severity
      threat_type := threat_type
      explanation := llm_analysis.explanation.getD ""
      recommendation := llm_analysis.recommendation.getD "" }
  let c1 : ThreatClassifier :=
    { c with recent_events := fun d =>
        if d = device_id then c.recent_events d ++ [event] else c.recent_events d }
  (event, clean_old_events c1 device_id timestamp)

/-- `ThreatClassifier.is_alert`: severity at or above the threshold. -/
def is_alert (c : ThreatClassifier) (e : SecurityEvent) : Bool :=
  decide (c.severity_threshold ≤ e.severity)

/-- The structured analysis dict returned by `LLMClient._parse_response` and
`LLMClient.analyze_log` (all four keys always present). -/
structure Assessment where
  threat_level : String
  severity : Rat
  explanation : String
  recommendation : String
deriving DecidableEq, Repr

/-- A successfully extracted and `json.loads`-parsed JSON object in
`LLMClient._parse_response`: the four fields it reads, each possibly absent,
with `severity` required numeric (a non-coercible value throws and lands in
the fallback path). -/
structure ParsedJson where
  threat_level : Option String
  severity : Option Rat
  explanation : Option String
  recommendation : Option String
deriving DecidableEq, Repr

/-- The `try` branch of `LLMClient._parse_response` after `json.loads`
succeeded: defaulting, lower-casing of threat_level, and clamping of severity
to [0, 1]. -/
def normalize_parsed (p : ParsedJson) : Assessment :=
  { threat_level := strLower (p.threat_level.getD "unknown")
    severity := max 0 (min 1 (p.severity.getD 0))
    explanation := p.explanation.getD "No explanation provided"
    recommendation := p.recommendation.getD "No recommendation" }

/-- The `except` branch of `LLMClient._parse_response` (any parse failure):
case-insensitive keyword scan of the raw response, first 500 characters as
explanation, fixed recommendation. -/
def parse_fallback (response : String) : Assessment :=
  let low := strLower response
  let level_severity : String × Rat :=
    if containsAnyOf low ["critical", "high", "severe"] then ("high", 8/10)
    else if containsAnyOf low ["medium", "moderate"] then ("medium", 5/10)
    else if containsAnyOf low ["low", "minor"] then ("low", 3/10)
    else if containsAnyOf low ["none", "normal", "safe"] then ("none", 0)
    else ("unknown", 5/10)
  { threat_level := level_severity.1
    severity := level_severity.2
    explanation := response.take 500
    recommendation := "Review log manually" }

/-- `LLMClient._parse_response`. The code-fence search plus `json.loads` of
the try branch is abstracted as the `extracted` argument: `some p` when JSON
extraction succeeded with object `p`, `none` when it failed (in which case
the heuristic fallback runs on the raw response). -/
def parse_response (extracted : Option ParsedJson) (response : String) : Assessment :=
  match extracted with
  | some p => normalize_parsed p
  | none => parse_fallback response

/-- `LLMClient.analyze_log`. The outcome of the `_generate` inference call is
the `gen_result` argument: `Except.ok response` on success (then the response
is parsed, with `extract` standing for the JSON-extraction attempt), and
`Except.error e` when the call raised (transport error or non-success status
from `raise_for_status`), in which case the degraded analysis is returned. -/
def analyze_log (gen_result : Except String String)
    (extract : String → Option ParsedJson) : Assessment :=
  match gen_result with
  | Except.ok response => parse_response (extract response) response
  | Except.error e =>
      { threat_level := "unknown"
        severity := 0
        explanation := "Error analyzing log: " ++ e
        recommendation := "Review log manually" }

/-- The dict returned by `TinyGuardian.get_stats`. The `threat_types` dict is
an insertion-ordered association list. -/
structure Stats where
  total_events : Nat
  alerts : Nat
  threat_types : List (ThreatType × Nat)
  uptime_seconds : Int
deriving DecidableEq, Repr

/-- One step of the `for event in self.events` loop of `get_stats`:
`threat_types[t] = threat_types.get(t, 0) + 1` on an insertion-ordered dict. -/
def bump_threat_type : List (ThreatType × Nat) → ThreatType → List (ThreatType × Nat)
  | [], t => [(t, 1)]
  | (k, v) :: rest, t =>
      if k = t then (k, v + 1) :: rest else (k, v) :: bump_threat_type rest t

/-- `TinyGuardian.get_stats` over the guardian's append-ordered event list
`events`, its classifier `c`, and the current time `now`. -/
def get_stats (c : ThreatClassifier) (events : List SecurityEvent) (now : Int) : Stats :=
  { total_events := events.length
    alerts := (events.filter (fun e => is_alert c e)).length
    threat_types := events.foldl (fun m e => bump_threat_type m e.threat_type) []
    uptime_seconds :=
      match events with
      | [] => 0
      | e :: _ => now - e.timestamp }

/-- Modelled from the spec: §4.2's fallback vocabulary groups in priority
order, each with its threat level and severity. -/
def fallback_priority_groups : List (List String × String × Rat) :=
  [(["critical", "high", "severe"], ("high", 8/10)),
   (["medium", "moderate"], ("medium", 5/10)),
   (["low", "minor"], ("low", 3/10)),
   (["none", "normal", "safe"], ("none", 0))]

/-- Modelled from the spec: the fallback's (threat_level, severity) pair as
§4.2 describes it — scan the raw text case-insensitively for the vocabulary
groups in priority order, first matching group wins, else the unknown/0.5
default. -/
def fallback_level_severity_spec (response : String) : String × Rat :=
  match fallback_priority_groups.find?
      (fun g => g.1.any (fun w => strContains (strLower response) w)) with
  | some g => g.2
  | none => ("unknown", 5/10)

/-- Modelled from the spec: §4.3's ordered keyword groups 2–7 (after the
auth-failure group), each with its threat type. -/
def threat_keyword_groups : List (List String × ThreatType) :=
  [(["unauthorized", "access denied", "permission denied"], ThreatType.unauthorized_access),
   (["network", "connection", "socket", "port scan"], ThreatType.network_anomaly),
   (["config", "setting", "configuration changed"], ThreatType.configuration_change),
   (["data", "export", "download", "exfiltrat"], ThreatType.data_exfiltration),
   (["malware", "virus", "trojan", "ransomware"], ThreatType.malware),
   (["dos", "ddos", "denial", "overload"], ThreatType.denial_of_service)]

/-- Modelled from the spec: §4.3's threat-type determination — test the
lower-cased concatenation of log text and explanation against the ordered
keyword groups, first match wins (the auth-failure group splitting into
brute_force vs unauthorized_access on the burst terms), else unknown. -/
def determine_threat_type_spec (log_text explanation : String) : ThreatType :=
  let combined := strLower log_text ++ " " ++ strLower explanation
  if ["failed login", "authentication failed", "invalid password"].any
      (fun w => strContains combined w) then
    if ["multiple", "repeated", "brute"].any (fun w => strContains combined w) then
      ThreatType.brute_force
    else ThreatType.unauthorized_access
  else
    match threat_keyword_groups.find?
        (fun g => g.1.any (fun w => strContains combined w)) with
    | some g => g.2
    | none => ThreatType.unknown

/-- A classifier fresh from `__init__` with the default 0.7 threshold. -/
def init07 : ThreatClassifier := ThreatClassifier.init (7/10)

/-- An `llm_analysis` dict carrying the out-of-range severity 5.0. -/
def outOfRangeAnalysis : Analysis :=
  { threat_level := none, severity := some 5, explanation := none, recommendation := none }

/-- An `llm_analysis` dict carrying severity 0.5 and no other keys. -/
def halfAnalysis : Analysis :=
  { threat_level := none, severity := some (1/2), explanation := none, recommendation := none }

/-- An `llm_analysis` dict carrying the in-range severity 1.0. -/
def oneAnalysis : Analysis :=
  { threat_level := none, severity := some 1, explanation := none, recommendation := none }

/-- A classifier whose alert threshold is 1.0. -/
def init1 : ThreatClassifier := ThreatClassifier.init 1

/-- A concrete event whose severity 1.0 sits exactly at `init1`'s threshold. -/
def thresholdEvent : SecurityEvent :=
  { event_id := "evt_0_d", device_id := "d", timestamp := 0, log_message := ""
    threat_level := "high", severity := 1, threat_type := ThreatType.unknown
    explanation := "", recommendation := "" }

/-- A burst of four same-device classifications, 60 seconds apart, all with
empty log/explanation (threat type `unknown`) and base severity 0.5. -/
def burst1 : SecurityEvent × ThreatClassifier := classify init07 "dev" "" halfAnalysis 0

/-- Second event of the burst. -/
def burst2 : SecurityEvent × ThreatClassifier := classify burst1.2 "dev" "" halfAnalysis 60

/-- Third event of the burst. -/
def burst3 : SecurityEvent × ThreatClassifier := classify burst2.2 "dev" "" halfAnalysis 120

/-- Fourth event of the burst: three same-type events already in the window. -/
def burst4 : SecurityEvent × ThreatClassifier := classify burst3.2 "dev" "" halfAnalysis 180

/- ------------------------------------------------------------------ -/
/- Helper lemmas                                                       -/
/- ------------------------------------------------------------------ -/

theorem isPrefixOf_self (l : List Char) : l.isPrefixOf l = true := by
  induction l with
  | nil => rfl
  | cons c t ih => simp [List.isPrefixOf, ih]

theorem subList_append_self (pre n : List Char) : subList n (pre ++ n) = true := by
  induction pre with
  | nil =>
      cases n with
      | nil => rfl
      | cons c t => simp [subList, isPrefixOf_self]
  | cons c t ih => simp [subList, ih]

/- ------------------------------------------------------------------ -/
/- Claims                                                              -/
/- ------------------------------------------------------------------ -/

/-- C1, refuted at a concrete input: `ThreatClassifier.classify` does not
clamp the severity it reads from the `llm_analysis` dict. Passing the
out-of-range severity 5.0 (with an empty window, so no escalation fires)
stores and returns an event whose severity is 5, outside [0, 1]. -/
theorem C1_counterexample :
    (classify init07 "dev" "" outOfRangeAnalysis 0).1.severity = 5 ∧
    ¬ ((classify init07 "dev" "" outOfRangeAnalysis 0).1.severity ≤ 1) := by
  decide

/-- C1 (amended): clamping to [0, 1] happens in the LLM client, not in
`classify`. Every assessment produced by `LLMClient._parse_response` (either
branch) and by `LLMClient.analyze_log` (including the degraded error path)
has severity in [0, 1]; and whenever the `llm_analysis` severity handed to
`classify` lies in [0, 1] — as is therefore the case for every assessment the
pipeline feeds it — the created and stored event's severity lies in [0, 1]. -/
theorem C1_amended :
    (∀ (extracted : Option ParsedJson) (response : String),
      0 ≤ (parse_response extracted response).severity ∧
        (parse_response extracted response).severity ≤ 1) ∧
    (∀ (gen_result : Except String String) (extract : String → Option ParsedJson),
      0 ≤ (analyze_log gen_result extract).severity ∧
        (analyze_log gen_result extract).severity ≤ 1) ∧
    (∀ (c : ThreatClassifier) (dev log : String) (a : Analysis) (t : Int),
      0 ≤ a.severity.getD 0 → a.severity.getD 0 ≤ 1 →
        0 ≤ (classify c dev log a t).1.severity ∧
          (classify c dev log a t).1.severity ≤ 1) := by
  have parse_bounds : ∀ (extracted : Option ParsedJson) (response : String),
      0 ≤ (parse_response extracted response).severity ∧
        (parse_response extracted response).severity ≤ 1 := by
    intro extracted response
    cases extracted with
    | some p =>
        simp only [parse_response, normalize_parsed]
        exact ⟨le_max_left 0 _, max_le (by norm_num) (min_le_left 1 _)⟩
    | none =>
        simp only [parse_response, parse_fallback]
        split_ifs <;> norm_num
  refine ⟨parse_bounds, ?_, ?_⟩
  · intro gen_result extract
    cases gen_result with
    | ok response => exact parse_bounds (extract response) response
    | error e => constructor <;> norm_num [analyze_log]
  · intro c dev log a t h0 h1
    have hsev : (classify c dev log a t).1.severity =
        if check_pattern c dev (determine_threat_type log a) t
        then min 1 (a.severity.getD 0 + 2/10)
        else a.severity.getD 0 := rfl
    rw [hsev]
    split_ifs
    · exact ⟨le_min (by norm_num) (by linarith), min_le_left 1 _⟩
    · exact ⟨h0, h1⟩

/-- Witness for C1 (amended): the in-range severity 1.0 on an empty window
is stored unchanged, inside [0, 1]. -/
theorem C1_amended_witness :
    (0 ≤ oneAnalysis.severity.getD 0) ∧ (oneAnalysis.severity.getD 0 ≤ 1) ∧
    (0 ≤ (classify init07 "dev" "" oneAnalysis 0).1.severity ∧
      (classify init07 "dev" "" oneAnalysis 0).1.severity ≤ 1) :=
  ⟨by decide, by decide,
   C1_amended.2.2 init07 "dev" "" oneAnalysis 0 (by decide) (by decide)⟩

/-- C2, refuted at a concrete input: event ids are not unique. Two distinct
classifications (different log messages, so different `SecurityEvent`s) for
the same device with the same timestamp-second both receive the id
`evt_100_dev`, because the id is built purely from the rounded timestamp and
the device id with no disambiguating counter. -/
theorem C2_counterexample :
    ((classify init07 "dev" "a" halfAnalysis 100).1 ≠
      (classify (classify init07 "dev" "a" halfAnalysis 100).2 "dev" "b" halfAnalysis 100).1) ∧
    ((classify init07 "dev" "a" halfAnalysis 100).1.event_id =
      (classify (classify init07 "dev" "a" halfAnalysis 100).2 "dev" "b" halfAnalysis 100).1.event_id) := by
  decide

/-- C2 (amended): the event id is the deterministic string
`evt_<timestamp-second>_<device>`, a function of the timestamp and device id
alone. Ids are therefore unique only as far as (timestamp-second, device)
pairs are: two classifications for the same device whose timestamps fall in
the same second receive the same id, not distinct ones. -/
theorem C2_amended (c : ThreatClassifier) (dev log : String) (a : Analysis) (t : Int) :
    (classify c dev log a t).1.event_id = "evt_" ++ toString t ++ "_" ++ dev := rfl

/-- C3: burst escalation. First conjunct, for every call: the severity of the
event `classify` creates is the base severity escalated by 0.2 (capped at 1)
exactly when the device's already-stored events of the same threat type with
timestamp at least `timestamp - 5 min` number 3 or more — the count runs over
the pre-call window, so it excludes the event being created. Remaining
conjuncts: in a burst of 4 same-type same-device events inside the window,
events 1-3 keep base severity 0.5 (so with only 3 events none is escalated)
and event 4 is escalated to 0.7. -/
theorem C3_burst_escalation :
    (∀ (c : ThreatClassifier) (dev log : String) (a : Analysis) (t : Int),
      (classify c dev log a t).1.severity =
        if 3 ≤ ((c.recent_events dev).filter (fun e =>
            decide (t - event_window ≤ e.timestamp) &&
            decide (e.threat_type = determine_threat_type log a))).length
        then min 1 (a.severity.getD 0 + 2/10)
        else a.severity.getD 0) ∧
    burst1.1.severity = 1/2 ∧ burst2.1.severity = 1/2 ∧ burst3.1.severity = 1/2 ∧
    burst4.1.severity = 7/10 := by
  refine ⟨?_, rfl, rfl, rfl, ?_⟩
  · intro c dev log a t
    have hsev : (classify c dev log a t).1.severity =
        if check_pattern c dev (determine_threat_type log a) t
        then min 1 (a.severity.getD 0 + 2/10)
        else a.severity.getD 0 := rfl
    rw [hsev]
    simp only [check_pattern, decide_eq_true_eq]
  · have h4 : burst4.1.severity = min 1 ((1/2 : Rat) + 2/10) := rfl
    rw [h4, min_eq_right (by norm_num : ((1 : Rat)/2 + 2/10) ≤ 1)]
    norm_num

/-- C4: window pruning boundary and invariant. After `classify(dev, …, t)`
returns, an event is in that device's window exactly when it was already
stored (or is the event just created) and its timestamp is at least
`t - event_window` (5 minutes). In particular every remaining event satisfies
the window invariant, an event exactly at `t - event_window` is retained
(inclusive boundary), and any strictly older event is removed. -/
theorem C4_window_pruning (c : ThreatClassifier) (dev log : String) (a : Analysis)
    (t : Int) (e : SecurityEvent) :
    e ∈ (classify c dev log a t).2.recent_events dev ↔
      ((e ∈ c.recent_events dev ∨ e = (classify c dev log a t).1) ∧
        t - event_window ≤ e.timestamp) := by
  have h : (classify c dev log a t).2.recent_events dev =
      (c.recent_events dev ++ [(classify c dev log a t).1]).filter
        (fun x => decide (t - event_window ≤ x.timestamp)) := by
    simp [classify, clean_old_events]
  rw [h]
  simp [List.mem_filter, List.mem_append]
  tauto

/-- C5: cross-device independence. A `classify` call for one device leaves
every other device's window untouched, and the burst-escalation test
`check_pattern` for a device depends only on that device's own window — so
events stored for device A can never change device B's escalation count,
whatever the interleaving of calls. -/
theorem C5_cross_device (c c1 c2 : ThreatClassifier) (dev d log : String)
    (a : Analysis) (t : Int) (ty : ThreatType) :
    (d ≠ dev → (classify c dev log a t).2.recent_events d = c.recent_events d) ∧
    (c1.recent_events d = c2.recent_events d →
      check_pattern c1 d ty t = check_pattern c2 d ty t) := by
  constructor
  · intro h
    simp [classify, clean_old_events, h]
  · intro h
    simp only [check_pattern, h]

/-- Witness for C5: classifying for device A leaves device B's (empty) window
unchanged, and `check_pattern` agrees on device B across two classifier
states whose device-B windows agree. -/
theorem C5_cross_device_witness :
    ("B" ≠ "A") ∧
    ((classify init07 "A" "" halfAnalysis 0).2.recent_events "B" =
      init07.recent_events "B") ∧
    (init07.recent_events "B" = init1.recent_events "B") ∧
    (check_pattern init07 "B" ThreatType.unknown 0 =
      check_pattern init1 "B" ThreatType.unknown 0) :=
  ⟨by decide,
   (C5_cross_device init07 init07 init1 "A" "B" "" halfAnalysis 0 ThreatType.unknown).1
     (by decide),
   rfl,
   (C5_cross_device init07 init07 init1 "A" "B" "" halfAnalysis 0 ThreatType.unknown).2 rfl⟩

/-- C6: analyzer heuristic fallback. Whenever structured JSON extraction
fails, `_parse_response` returns exactly the assessment the spec's
priority-ordered case-insensitive vocabulary scan describes
(`fallback_level_severity_spec`), with the first 500 characters of the raw
text as explanation and the fixed manual-review recommendation. -/
theorem C6_fallback (response : String) :
    parse_response none response =
      { threat_level := (fallback_level_severity_spec response).1
        severity := (fallback_level_severity_spec response).2
        explanation := response.take 500
        recommendation := "Review log manually" } := by
  have e1 : parse_response none response = parse_fallback response := rfl
  rw [e1]
  unfold parse_fallback fallback_level_severity_spec fallback_priority_groups
  simp only [containsAnyOf]
  by_cases h1 : ["critical", "high", "severe"].any (fun w => strContains (strLower response) w) <;>
  by_cases h2 : ["medium", "moderate"].any (fun w => strContains (strLower response) w) <;>
  by_cases h3 : ["low", "minor"].any (fun w => strContains (strLower response) w) <;>
  by_cases h4 : ["none", "normal", "safe"].any (fun w => strContains (strLower response) w) <;>
    simp [h1, h2, h3, h4, List.find?]

/-- C7: threat-type determination. `_determine_threat_type` computes exactly
the spec's first-match scan of the lower-cased concatenation of log text and
explanation against the eight ordered keyword groups
(`determine_threat_type_spec`): the auth-failure group splits into
brute_force vs unauthorized_access on the burst terms, then groups 2-7 are
tried in order and the first match decides; no later group overrides an
earlier match. -/
theorem C7_threat_type (log_message : String) (llm_analysis : Analysis) :
    determine_threat_type log_message llm_analysis =
      determine_threat_type_spec log_message (llm_analysis.explanation.getD "") := by
  unfold determine_threat_type determine_threat_type_spec threat_keyword_groups
  simp only [containsAnyOf]
  by_cases hA : ["failed login", "authentication failed", "invalid password"].any
      (fun w => strContains (strLower log_message ++ " " ++ strLower (llm_analysis.explanation.getD "")) w)
  · by_cases hB : ["multiple", "repeated", "brute"].any
        (fun w => strContains (strLower log_message ++ " " ++ strLower (llm_analysis.explanation.getD "")) w) <;>
      simp [hA, hB]
  · by_cases h2 : ["unauthorized", "access denied", "permission denied"].any
        (fun w => strContains (strLower log_message ++ " " ++ strLower (llm_analysis.explanation.getD "")) w) <;>
    by_cases h3 : ["network", "connection", "socket", "port scan"].any
        (fun w => strContains (strLower log_message ++ " " ++ strLower (llm_analysis.explanation.getD "")) w) <;>
    by_cases h4 : ["config", "setting", "configuration changed"].any
        (fun w => strContains (strLower log_message ++ " " ++ strLower (llm_analysis.explanation.getD "")) w) <;>
    by_cases h5 : ["data", "export", "download", "exfiltrat"].any
        (fun w => strContains (strLower log_message ++ " " ++ strLower (llm_analysis.explanation.getD "")) w) <;>
    by_cases h6 : ["malware", "virus", "trojan", "ransomware"].any
        (fun w => strContains (strLower log_message ++ " " ++ strLower (llm_analysis.explanation.getD "")) w) <;>
    by_cases h7 : ["dos", "ddos", "denial", "overload"].any
        (fun w => strContains (strLower log_message ++ " " ++ strLower (llm_analysis.explanation.getD "")) w) <;>
      simp [hA, h2, h3, h4, h5, h6, h7, List.find?]

/-- C8: `is_alert` is boundary-inclusive — it holds exactly when the event's
severity is at least the classifier's threshold; severity equal to the
threshold is an alert, strictly below is not. -/
theorem C8_is_alert (c : ThreatClassifier) (e : SecurityEvent) :
    (is_alert c e = true ↔ c.severity_threshold ≤ e.severity) ∧
    (e.severity = c.severity_threshold → is_alert c e = true) ∧
    (e.severity < c.severity_threshold → is_alert c e = false) := by
  refine ⟨by simp [is_alert], ?_, ?_⟩
  · intro h
    simp [is_alert, h]
  · intro h
    simp [is_alert]
    exact h

/-- Witness for C8: an event whose severity 1.0 equals the threshold of
`init1` exactly is an alert. -/
theorem C8_is_alert_witness :
    (thresholdEvent.severity = init1.severity_threshold) ∧
    is_alert init1 thresholdEvent = true :=
  ⟨by decide, (C8_is_alert init1 thresholdEvent).2.1 (by decide)⟩

/-- C9: inference-failure degradation. When the `_generate` call inside
`analyze_log` fails, `analyze_log` returns (rather than propagates) the
degraded assessment: threat_level "unknown", severity 0, an explanation that
contains the error text, and the fixed manual-review recommendation. -/
theorem C9_degraded (err : String) (extract : String → Option ParsedJson) :
    analyze_log (Except.error err) extract =
      { threat_level := "unknown", severity := 0,
        explanation := "Error analyzing log: " ++ err,
        recommendation := "Review log manually" } ∧
    strContains (analyze_log (Except.error err) extract).explanation err = true := by
  refine ⟨rfl, ?_⟩
  have h : (analyze_log (Except.error err) extract).explanation =
      "Error analyzing log: " ++ err := rfl
  rw [h]
  show subList err.data ("Error analyzing log: " ++ err).data = true
  have hd : ("Error analyzing log: " ++ err).data =
      "Error analyzing log: ".data ++ err.data := rfl
  rw [hd]
  exact subList_append_self _ _

/-- C10: `get_stats` on an empty event log returns zero totals, zero alerts,
an empty threat-type mapping and uptime 0 (it does not fail); on a non-empty
log its uptime is `now` minus the timestamp of the first appended event
(index 0), not a true process start time. -/
theorem C10_get_stats :
    (∀ (c : ThreatClassifier) (now : Int),
      get_stats c [] now =
        { total_events := 0, alerts := 0, threat_types := [], uptime_seconds := 0 }) ∧
    (∀ (c : ThreatClassifier) (e : SecurityEvent) (es : List SecurityEvent) (now : Int),
      (get_stats c (e :: es) now).uptime_seconds = now - e.timestamp) :=
  ⟨fun _ _ => rfl, fun _ _ _ _ => rfl⟩
